import Mathlib

/-!
Verification of the AMR developer interface (operator console for a mobile
robot) against its natural-language specification.

The source is `src/components/AMRDeveloperInterface.jsx` (primary view) and
`src/components/AMRMonitorPage.jsx` (monitor view).  JavaScript numbers are
modelled as exact rationals (`ℚ`) where the source only adds, subtracts,
multiplies, divides and compares, and as reals (`ℝ`) where the source calls
transcendental library functions (`Math.atan2`, `Math.cos`, `Math.sin`).
Stateful handlers become explicit state-passing functions; the timer-driven
connection code becomes a discrete-event fold over a time-sorted schedule.
-/

namespace AMR

/-! ### Log list (`addLog` in AMRDeveloperInterface, broadcast append in AMRMonitorPage) -/

structure LogEntry where
  time : String
  type : String
  message : String
deriving DecidableEq

/-- JS `arr.slice(-9)`: the last at-most-9 elements of the array. -/
def sliceLast9 (l : List LogEntry) : List LogEntry :=
  l.drop (l.length - 9)

/-- `addLog` in AMRDeveloperInterface.jsx:
`setLogs(prev => [...prev.slice(-9), { time, type, message }])`. -/
def addLog (prev : List LogEntry) (e : LogEntry) : List LogEntry :=
  sliceLast9 prev ++ [e]

/-- The `amr_log_broadcast` branch of `handleStorageChange` in AMRMonitorPage.jsx:
`setLogs(prev => [...prev.slice(-9), logEntry])`. -/
def monitorAppendLog (prev : List LogEntry) (e : LogEntry) : List LogEntry :=
  sliceLast9 prev ++ [e]

/-! ### View transform controller (`handleMapWheel`, `resetMapView`) -/

/-- `handleMapWheel`: `delta = event.deltaY > 0 ? 0.9 : 1.1;`
`newZoom = Math.max(0.5, Math.min(5.0, mapZoom * delta))`. -/
def handleMapWheelZoom (deltaY mapZoom : ℚ) : ℚ :=
  max 0.5 (min 5.0 (mapZoom * (if 0 < deltaY then (0.9 : ℚ) else 1.1)))

/-- `resetMapView`: `setMapZoom(1.0); setMapOffset({ x: 0, y: 0 })`.
Result is the pair (zoom, panOffset). -/
def resetMapView : ℚ × (ℚ × ℚ) :=
  (1.0, (0, 0))

/-! ### Waypoints (`handleMapClick` waypoints branch) -/

structure Waypoint where
  id : ℕ
  x : ℚ
  y : ℚ
  order : ℕ
deriving DecidableEq

/-- `handleMapClick`, `currentMode === 'waypoints'` branch: appends
`{ id: Date.now(), x, y, order: waypoints.length + 1 }`. -/
def addWaypoint (ws : List Waypoint) (i : ℕ) (x y : ℚ) : List Waypoint :=
  ws ++ [⟨i, x, y, ws.length + 1⟩]

/-- Modelled from the spec: the repository has no waypoint-delete operation
(only stations can be deleted); the spec requires deletion to leave the
remaining orders unchanged, gaps permitted.  Modelled as removal by id,
mirroring the station-delete pattern
`setStations(prev => prev.filter(s => s.id !== station.id))`. -/
def deleteWaypoint (ws : List Waypoint) (i : ℕ) : List Waypoint :=
  ws.filter (fun w => w.id != i)

/-! ### Teleoperation (`publishCmdVel`, `moveRobot`) -/

inductive MoveDir
  | forward
  | backward
  | left
  | right
  | rotateLeft
  | rotateRight
deriving DecidableEq

structure TeleopState where
  rosConnected : Bool
  cmdVelTopic : Option String
  speed : ℚ
  angularSpeed : ℚ
  published : List (ℚ × ℚ)
  logs : List (String × String)
deriving DecidableEq

/-- `publishCmdVel`: `if (!rosConnected || !cmdVelRef.current) return;`
otherwise publish a Twist with the given `linear.x` and `angular.z`. -/
def publishCmdVel (s : TeleopState) (lin ang : ℚ) : TeleopState :=
  if s.rosConnected = false ∨ s.cmdVelTopic = none then s
  else { s with published := s.published ++ [(lin, ang)] }

/-- `moveRobot`: when not connected, logs the error `請先連接 ROS` and returns;
otherwise derives (linear, angular) from the direction and the speed settings,
publishes via `publishCmdVel` and logs an info entry. -/
def moveRobot (s : TeleopState) (dir : MoveDir) : TeleopState :=
  if s.rosConnected = false then
    { s with logs := s.logs ++ [("error", "請先連接 ROS")] }
  else
    let lin : ℚ :=
      match dir with
      | .forward => s.speed
      | .backward => -s.speed
      | _ => 0
    let ang : ℚ :=
      match dir with
      | .left => s.angularSpeed
      | .rotateLeft => s.angularSpeed
      | .right => -s.angularSpeed
      | .rotateRight => -s.angularSpeed
      | _ => 0
    let s2 := publishCmdVel s lin ang
    { s2 with logs := s2.logs ++ [("info", "移動指令")] }

/-! ### Occupancy-grid topic handler (`setupRosTopics`, `/map` subscribe callback) -/

structure MapInfo where
  width : ℕ
  height : ℕ
  resolution : ℚ
  originX : ℚ
  originY : ℚ
deriving DecidableEq

structure MapMessage where
  info : MapInfo
  data : Option (List ℤ)
deriving DecidableEq

structure MapViewState where
  mapData : Option MapMessage
  logs : List (String × String)
deriving DecidableEq

/-- The `/map` subscribe callback in `setupRosTopics`:
`if (message.data && message.data.length > 0) { setMapData(message);
setTimeout(() => drawMap(message), 100); addLog('success', ...); }`.
The boolean result records whether a render pass was triggered by this message. -/
def mapTopicHandler (s : MapViewState) (msg : MapMessage) : MapViewState × Bool :=
  match msg.data with
  | some d =>
      if 0 < d.length then
        ({ s with mapData := some msg,
                  logs := s.logs ++ [("success", "地圖更新")] }, true)
      else (s, false)
  | none => (s, false)

/-! ### Spatial renderer transform (`drawMap`) and click inverse (`handleMapClick`) -/

structure ViewParams where
  displayW : ℚ
  displayH : ℚ
  gridW : ℚ
  gridH : ℚ
  resolution : ℚ
  originX : ℚ
  originY : ℚ
  zoom : ℚ
  panX : ℚ
  panY : ℚ
deriving DecidableEq

/-- `drawMap`: `baseScale = Math.min(displayWidth/width, displayHeight/height) * 0.8`. -/
def baseScale (v : ViewParams) : ℚ :=
  min (v.displayW / v.gridW) (v.displayH / v.gridH) * 0.8

/-- `drawMap`: `finalScale = baseScale * mapZoom`. -/
def finalScale (v : ViewParams) : ℚ :=
  baseScale v * v.zoom

/-- `drawMap`: `offsetX = centerX - (width * finalScale) / 2 + mapOffset.x`. -/
def offsetX (v : ViewParams) : ℚ :=
  v.displayW / 2 - v.gridW * finalScale v / 2 + v.panX

/-- `drawMap`: `offsetY = centerY - (height * finalScale) / 2 + mapOffset.y`. -/
def offsetY (v : ViewParams) : ℚ :=
  v.displayH / 2 - v.gridH * finalScale v / 2 + v.panY

/-- `drawMap` robot placement: `robotMapX = (worldX - origin.position.x) / resolution;`
`robotMapY = height - (worldY - origin.position.y) / resolution`. -/
def worldToGrid (v : ViewParams) (wx wy : ℚ) : ℚ × ℚ :=
  ((wx - v.originX) / v.resolution, v.gridH - (wy - v.originY) / v.resolution)

/-- `drawMap`: grid cell to surface pixel, `offset + cell * finalScale`. -/
def gridToPixel (v : ViewParams) (gx gy : ℚ) : ℚ × ℚ :=
  (offsetX v + gx * finalScale v, offsetY v + gy * finalScale v)

/-- The renderer's forward transform: world point to surface pixel, as composed
in `drawMap` for the robot marker. -/
def worldToPixel (v : ViewParams) (wx wy : ℚ) : ℚ × ℚ :=
  gridToPixel v (worldToGrid v wx wy).1 (worldToGrid v wx wy).2

/-- `handleMapClick`, `currentMode === 'navigation'` branch:
`worldX = x * mapData.info.resolution + mapData.info.origin.position.x;`
`worldY = (canvas.height - y) * mapData.info.resolution + mapData.info.origin.position.y`.
Note `canvas.height` is the display height set by `drawMap`. -/
def clickToWorld (v : ViewParams) (px py : ℚ) : ℚ × ℚ :=
  (px * v.resolution + v.originX, (v.displayH - py) * v.resolution + v.originY)

/-! ### Connection lifecycle (`attemptROSConnection`, `initAndSetupROS`)

The timer-driven connection code is modelled as a discrete-event system: each
`setTimeout` callback and each transport `connection` event is an entry in a
schedule `(time, event)`, fired in time order by a fold.  `clearTimeout` on
the connect-timeout timer is modelled by the `timeoutArmed` flag. -/

structure ConnState where
  rosConnected : Bool
  robotStatus : String
  isConnected : Bool
  timeoutArmed : Bool
  setupCalls : ℕ
  cmdVelTopic : Option String
  subs : List String
  logs : List (String × String)

inductive ConnEvent
  | connection
  | setupFire
  | checkFire
  | timeoutFire
deriving DecidableEq

/-- `setupRosTopics`: creates the `/cmd_vel` publisher, subscribes `/odom`
and `/map` on the given ros instance, and logs completion. -/
def setupRosTopics (s : ConnState) : ConnState :=
  { s with cmdVelTopic := some "/cmd_vel",
           subs := s.subs ++ ["/odom", "/map"],
           setupCalls := s.setupCalls + 1,
           logs := s.logs ++ [("info", "正在訂閱地圖話題 /map..."),
                              ("success", "ROS 話題設置完成")] }

/-- One event of `attemptROSConnection` (the operator-connect path inside
`initROS`): the `connection` handler clears the 15 s timeout, sets connected
state and schedules `setupRosTopics` 500 ms later (`setupFire`); the 5 s
manual check (`checkFire`) re-runs the success path including
`setupRosTopics(rosInstance)` whenever `rosInstance.isConnected`; the 15 s
timeout (`timeoutFire`) reports `ROS 連接超時` if not cleared. -/
def attemptStep (s : ConnState) : ℕ × ConnEvent → ConnState
  | (_, .connection) =>
      { s with isConnected := true, timeoutArmed := false,
               rosConnected := true, robotStatus := "已連接",
               logs := s.logs ++ [("success", "ROS 連接成功")] }
  | (_, .setupFire) => setupRosTopics s
  | (_, .checkFire) =>
      if s.isConnected then
        setupRosTopics
          { s with timeoutArmed := false, rosConnected := true,
                   robotStatus := "已連接",
                   logs := s.logs ++ [("success", "ROS 連接確認成功")] }
      else s
  | (_, .timeoutFire) =>
      if s.timeoutArmed then
        { s with rosConnected := false, robotStatus := "ROS 連接超時",
                 logs := s.logs ++ [("error", "ROS 連接超時 - 請檢查 rosbridge 和 roscore")] }
      else s

/-- One event of `initAndSetupROS` (the mount-time path): same `connection`
handler shape but the deferred `setupRosTopics` is scheduled 1000 ms later,
the timeout is 10 s with status `連接超時`, and there is no 5 s manual check. -/
def initStep (s : ConnState) : ℕ × ConnEvent → ConnState
  | (_, .connection) =>
      { s with isConnected := true, timeoutArmed := false,
               rosConnected := true, robotStatus := "已連接",
               logs := s.logs ++ [("success", "ROS 連接成功")] }
  | (_, .setupFire) => setupRosTopics s
  | (_, .checkFire) => s
  | (_, .timeoutFire) =>
      if s.timeoutArmed then
        { s with rosConnected := false, robotStatus := "連接超時",
                 logs := s.logs ++ [("error", "連接超時，請檢查 rosbridge 是否運行")] }
      else s

/-- Insert a scheduled event into a time-ordered list (earlier entries first,
existing entries keep priority on ties, matching JS timer creation order). -/
def insertByTime (p : ℕ × ConnEvent) : List (ℕ × ConnEvent) → List (ℕ × ConnEvent)
  | [] => [p]
  | q :: qs => if p.1 < q.1 then p :: q :: qs else q :: insertByTime p qs

/-- Sort a schedule by firing time. -/
def sortByTime (l : List (ℕ × ConnEvent)) : List (ℕ × ConnEvent) :=
  l.foldr insertByTime []

/-- Timer/event schedule of one `attemptROSConnection` call, given the arrival
times of the transport `connection` events: the 5 s manual check and the 15 s
timeout are always armed; each connection event at `t` also schedules the
deferred `setupRosTopics` at `t + 500`. -/
def attemptSchedule (events : List ℕ) : List (ℕ × ConnEvent) :=
  sortByTime ((5000, .checkFire) :: (15000, .timeoutFire) ::
    events.flatMap (fun t => [(t, .connection), (t + 500, .setupFire)]))

/-- Timer/event schedule of one `initAndSetupROS` call: 10 s timeout, deferred
`setupRosTopics` 1000 ms after each connection event, no manual check. -/
def initSchedule (events : List ℕ) : List (ℕ × ConnEvent) :=
  sortByTime ((10000, .timeoutFire) ::
    events.flatMap (fun t => [(t, .connection), (t + 1000, .setupFire)]))

/-- Run one `attemptROSConnection` call to quiescence.  The initial state has
status `建立 ROS 連接...` (set at the top of `attemptROSConnection`), no
subscriptions, no command handle, and the connect timeout armed. -/
def runAttempt (events : List ℕ) : ConnState :=
  (attemptSchedule events).foldl attemptStep
    ⟨false, "建立 ROS 連接...", false, true, 0, none, [], []⟩

/-- Run one `initAndSetupROS` call (mount-time connect) to quiescence. -/
def runInitAndSetup (events : List ℕ) : ConnState :=
  (initSchedule events).foldl initStep
    ⟨false, "未連接", false, true, 0, none, [], []⟩

/-! ### Telemetry ingestion (`/odom` subscribe callback) and robot drawing -/

/-- JS `Math.atan2(y, x)`: principal angle of the point `(x, y)` in `(-π, π]`. -/
noncomputable def atan2 (y x : ℝ) : ℝ :=
  if 0 < x then Real.arctan (y / x)
  else if x < 0 then
    (if 0 ≤ y then Real.arctan (y / x) + Real.pi
     else Real.arctan (y / x) - Real.pi)
  else
    (if 0 < y then Real.pi / 2 else if y < 0 then -(Real.pi / 2) else 0)

/-- JS `Number.prototype.toFixed(1)` read back as a number: round to one
decimal place. -/
noncomputable def toFixed1 (x : ℝ) : ℝ :=
  (round (10 * x) : ℤ) / 10

/-- JS `Number.prototype.toFixed(3)` read back as a number: round to three
decimal places. -/
noncomputable def toFixed3 (x : ℝ) : ℝ :=
  (round (1000 * x) : ℤ) / 1000

/-- The `/odom` subscribe callback's heading computation:
`theta = 2 * Math.atan2(orientation.z, orientation.w)`, stored as
`(theta * 180 / Math.PI).toFixed(1)`. -/
noncomputable def odomTheta (z w : ℝ) : ℝ :=
  toFixed1 (2 * atan2 z w * 180 / Real.pi)

/-- The `/odom` subscribe callback's stored position coordinate:
`parseFloat(position.x.toFixed(3))` (same for `y`). -/
noncomputable def odomPosCoord (p : ℝ) : ℝ :=
  toFixed3 p

/-- `drawMap` heading ray: `theta = parseFloat(currentPose.theta) * Math.PI / 180;`
`arrow = (robot.x + cos(theta)*20*zoom, robot.y - sin(theta)*20*zoom)`.
Result is the ray's screen-space displacement from the robot marker. -/
noncomputable def headingRayDelta (thetaDeg zoom : ℝ) : ℝ × ℝ :=
  (Real.cos (thetaDeg * Real.pi / 180) * (20 * zoom),
   -(Real.sin (thetaDeg * Real.pi / 180) * (20 * zoom)))

/-! ## Theorems -/

/-- C10: the operator console's log list is bounded: after every `addLog` the
retained list has at most 10 entries and equals the 9 most recent previous
entries plus the new one; the monitor view's per-entry broadcast append
maintains the same bound; the retained list is a suffix of the full
append-only history. -/
theorem c10_log_list_bounded :
    (∀ prev e, (addLog prev e).length ≤ 10) ∧
    (∀ prev e, addLog prev e = prev.drop (prev.length - 9) ++ [e]) ∧
    (∀ prev e, (monitorAppendLog prev e).length ≤ 10) ∧
    (∀ prev e, (addLog prev e).IsSuffix (prev ++ [e])) := by
  refine ⟨?_, ?_, ?_, ?_⟩
  · intro prev e
    simp only [addLog, sliceLast9, List.length_append, List.length_drop,
      List.length_singleton]
    omega
  · intro prev e
    rfl
  · intro prev e
    simp only [monitorAppendLog, sliceLast9, List.length_append, List.length_drop,
      List.length_singleton]
    omega
  · intro prev e
    obtain ⟨t, ht⟩ := List.drop_suffix (prev.length - 9) prev
    refine ⟨t, ?_⟩
    show t ++ (prev.drop (prev.length - 9) ++ [e]) = prev ++ [e]
    rw [← List.append_assoc, ht]

/-- C8: the zoom value stays in `[0.5, 5.0]` after every mutating operation:
each wheel gesture multiplies the zoom by 1.1 or 0.9 and clamps the result to
`[0.5, 5.0]`, and the reset operation restores zoom 1.0 and pan offset (0,0). -/
theorem c8_zoom_always_clamped :
    (∀ deltaY z, 0.5 ≤ handleMapWheelZoom deltaY z ∧ handleMapWheelZoom deltaY z ≤ 5.0) ∧
    (∀ deltaY z, handleMapWheelZoom deltaY z
        = max 0.5 (min 5.0 (z * (if 0 < deltaY then (0.9 : ℚ) else 1.1)))) ∧
    resetMapView = (1.0, (0, 0)) := by
  refine ⟨?_, fun _ _ => rfl, rfl⟩
  intro deltaY z
  exact ⟨le_max_left _ _, max_le (by norm_num) (min_le_left _ _)⟩

/-- C7: every waypoint-add assigns `order = (current count) + 1` while leaving
the existing orders untouched; adding three waypoints to an empty list yields
orders `[1, 2, 3]`; deletion (modelled from the spec, since the source has no
waypoint-delete operation) keeps a sublist of the original waypoints
unchanged, so remaining orders are never renumbered — deleting the order-2
waypoint from the three-waypoint example leaves orders `[1, 3]`. -/
theorem c7_waypoint_orders_monotonic_never_renumbered :
    (∀ ws i x y, (addWaypoint ws i x y).map Waypoint.order
        = ws.map Waypoint.order ++ [ws.length + 1]) ∧
    ((addWaypoint (addWaypoint (addWaypoint [] 1 0 0) 2 0 0) 3 0 0).map Waypoint.order
        = [1, 2, 3]) ∧
    (∀ ws i, (deleteWaypoint ws i).Sublist ws) ∧
    ((deleteWaypoint [⟨1, 0, 0, 1⟩, ⟨2, 0, 0, 2⟩, ⟨3, 0, 0, 3⟩] 2).map Waypoint.order
        = [1, 3]) := by
  refine ⟨?_, rfl, ?_, rfl⟩
  · intro ws i x y
    simp [addWaypoint]
  · intro ws i
    exact List.filter_sublist ws

/-- C9: whenever the connection is not `Connected`, no velocity command is
published: `publishCmdVel` is the identity when disconnected or when the
outbound topic handle is absent, and `moveRobot` publishes nothing and logs
the error `請先連接 ROS` instead. -/
theorem c9_no_publish_when_disconnected :
    (∀ s lin ang, s.rosConnected = false ∨ s.cmdVelTopic = none →
        publishCmdVel s lin ang = s) ∧
    (∀ s dir, s.rosConnected = false →
        (moveRobot s dir).published = s.published ∧
        (moveRobot s dir).logs = s.logs ++ [("error", "請先連接 ROS")]) := by
  constructor
  · intro s lin ang h
    simp [publishCmdVel, h]
  · intro s dir h
    simp [moveRobot, h]

/-- Witness for C9 at the concrete disconnected state: speed settings 0.2 and
0.5 with no topic handle, empty history. -/
theorem c9_no_publish_when_disconnected_witness :
    publishCmdVel ⟨false, none, 0.2, 0.5, [], []⟩ 1 2 = ⟨false, none, 0.2, 0.5, [], []⟩ ∧
    (moveRobot ⟨false, none, 0.2, 0.5, [], []⟩ MoveDir.forward).published = [] ∧
    (moveRobot ⟨false, none, 0.2, 0.5, [], []⟩ MoveDir.forward).logs
        = [("error", "請先連接 ROS")] := by
  refine ⟨c9_no_publish_when_disconnected.1 _ 1 2 (Or.inl rfl), ?_, ?_⟩
  · exact (c9_no_publish_when_disconnected.2 _ MoveDir.forward rfl).1
  · have h := (c9_no_publish_when_disconnected.2
      ⟨false, none, 0.2, 0.5, [], []⟩ MoveDir.forward rfl).2
    simpa using h

/-- C6: on each occupancy-grid message with a non-empty payload, the stored
grid is replaced wholesale by the message and a render pass is triggered; a
message with an empty or missing payload leaves the state unchanged (no error
log, no render). -/
theorem c6_grid_message_replace_or_ignore :
    (∀ s msg d, msg.data = some d → 0 < d.length →
        (mapTopicHandler s msg).1.mapData = some msg ∧
        (mapTopicHandler s msg).2 = true) ∧
    (∀ s msg, msg.data = none ∨ msg.data = some [] →
        mapTopicHandler s msg = (s, false)) := by
  constructor
  · rintro s ⟨info, data⟩ d h hd
    simp only at h
    subst h
    simp [mapTopicHandler, hd]
  · rintro s ⟨info, data⟩ (h | h) <;> simp only at h <;> subst h <;>
      simp [mapTopicHandler]

/-- Witness for C6: a 2×2 grid message with four cells is stored and triggers
a render; the same message with a missing payload is ignored. -/
theorem c6_grid_message_replace_or_ignore_witness :
    (mapTopicHandler ⟨none, []⟩ ⟨⟨2, 2, 1, 0, 0⟩, some [0, 0, 0, 0]⟩).1.mapData
        = some ⟨⟨2, 2, 1, 0, 0⟩, some [0, 0, 0, 0]⟩ ∧
    (mapTopicHandler ⟨none, []⟩ ⟨⟨2, 2, 1, 0, 0⟩, some [0, 0, 0, 0]⟩).2 = true ∧
    mapTopicHandler ⟨none, []⟩ ⟨⟨2, 2, 1, 0, 0⟩, none⟩ = (⟨none, []⟩, false) := by
  refine ⟨?_, ?_, ?_⟩
  · exact (c6_grid_message_replace_or_ignore.1 _ _ [0, 0, 0, 0] rfl (by decide)).1
  · exact (c6_grid_message_replace_or_ignore.1 _ _ [0, 0, 0, 0] rfl (by decide)).2
  · exact c6_grid_message_replace_or_ignore.2 _ _ (Or.inl rfl)

/-- C1: the click-handler inverse does not invert the renderer's forward
transform.  Even at zoom 1 and pan (0,0), on an 800×400 surface with a 4×4
grid of resolution 1 and origin (0,0), `drawMap` places world point (2,2) at
pixel (400,200), but `handleMapClick`'s navigation branch maps that pixel back
to world (400,200) — not (2,2): the inverse never subtracts the render offset
nor divides by `finalScale`, and it flips Y by the surface height instead of
the grid height, so the round-trip fails far beyond any floating-point
tolerance. -/
theorem c1_click_inverse_breaks_roundtrip :
    worldToPixel ⟨800, 400, 4, 4, 1, 0, 0, 1, 0, 0⟩ 2 2 = (400, 200) ∧
    clickToWorld ⟨800, 400, 4, 4, 1, 0, 0, 1, 0, 0⟩ 400 200 = (400, 200) ∧
    clickToWorld ⟨800, 400, 4, 4, 1, 0, 0, 1, 0, 0⟩
        (worldToPixel ⟨800, 400, 4, 4, 1, 0, 0, 1, 0, 0⟩ 2 2).1
        (worldToPixel ⟨800, 400, 4, 4, 1, 0, 0, 1, 0, 0⟩ 2 2).2 ≠ (2, 2) := by
  refine ⟨?_, ?_, ?_⟩ <;>
    simp [worldToPixel, gridToPixel, worldToGrid, offsetX, offsetY, finalScale,
      baseScale, clickToWorld, min_def, Prod.ext_iff] <;> norm_num

/-- C2: delivering a single transport `connection` event at 1000 ms (before
the 15 s timeout) does leave the system connected with status `已連接`, but
`setupRosTopics` runs twice for that one successful connection: once from the
connection handler (scheduled at 1500 ms) and once more from the unconditional
5-second manual check, which re-runs the success path whenever
`rosInstance.isConnected` without checking whether setup already happened. -/
theorem c2_single_connection_event_double_setup :
    (runAttempt [1000]).rosConnected = true ∧
    (runAttempt [1000]).robotStatus = "已連接" ∧
    (runAttempt [1000]).setupCalls = 2 := by
  refine ⟨rfl, rfl, rfl⟩

/-- C3: the connection handler is not idempotent: delivering a second
`connection` event while already connected (events at 1000 ms and 3000 ms,
no intervening disconnect) re-runs `setupRosTopics`, subscribing `/odom` and
`/map` a second time, whereas a single event subscribes each exactly once. -/
theorem c3_duplicate_connection_event_resubscribes :
    (runInitAndSetup [1000, 3000]).setupCalls = 2 ∧
    (runInitAndSetup [1000, 3000]).subs = ["/odom", "/map", "/odom", "/map"] ∧
    (runInitAndSetup [1000]).subs = ["/odom", "/map"] := by
  refine ⟨rfl, rfl, rfl⟩

lemma atan2_zero_one : atan2 0 1 = 0 := by
  unfold atan2
  rw [if_pos (by norm_num)]
  norm_num [Real.arctan_zero]

lemma atan2_one_neg_one : atan2 1 (-1) = 3 * Real.pi / 4 := by
  unfold atan2
  rw [if_neg (by norm_num), if_pos (by norm_num), if_pos (by norm_num),
    show (1 : ℝ) / (-1) = -1 by norm_num, Real.arctan_neg, Real.arctan_one]
  ring

lemma toFixed1_270 : toFixed1 270 = 270 := by
  unfold toFixed1
  rw [show (10 : ℝ) * 270 = ((2700 : ℤ) : ℝ) by norm_num, round_intCast]
  norm_num

lemma toFixed1_zero : toFixed1 0 = 0 := by
  unfold toFixed1
  rw [mul_zero, round_zero]
  norm_num

lemma toFixed3_two : toFixed3 2 = 2 := by
  unfold toFixed3
  rw [show (1000 : ℝ) * 2 = ((2000 : ℤ) : ℝ) by norm_num, round_intCast]
  norm_num

lemma odomTheta_one_neg_one : odomTheta 1 (-1) = 270 := by
  unfold odomTheta
  rw [atan2_one_neg_one,
    show 2 * (3 * Real.pi / 4) * 180 / Real.pi = 270 by
      field_simp
      ring]
  exact toFixed1_270

/-- C4: the telemetry handler converts the quaternion z/w pair into a planar
heading `theta = 2*atan2(z, w)` radians and stores the degree conversion
(rounded to the 0.1° printed by `toFixed(1)`, which the stored form carries)
with no wrap-normalization into any range: orientation (z,w) = (1,-1) is
stored as 270°, outside (-180, 180]. -/
theorem c4_theta_two_atan2_degrees_no_wrap :
    (∀ z w : ℝ, odomTheta z w = toFixed1 (2 * atan2 z w * 180 / Real.pi)) ∧
    odomTheta 1 (-1) = 270 ∧
    ¬ odomTheta 1 (-1) ≤ 180 := by
  refine ⟨fun z w => rfl, odomTheta_one_neg_one, ?_⟩
  rw [odomTheta_one_neg_one]
  norm_num

/-- C5: the renderer maps world pose (wx, wy) to grid cell
`((wx - origin.x)/resolution, gridHeight - (wy - origin.y)/resolution)`
(Y axis flipped); in the end-to-end scenario — 4×4 grid, resolution 1, origin
(0,0), telemetry position (2,2) with orientation z=0, w=1 — the stored heading
is 0°, the stored position coordinate is exactly 2, the robot marker lands at
grid cell (2,2) before scaling, and the heading ray's screen displacement at
zoom 1 is (20, 0), i.e. along +X. -/
theorem c5_world_to_grid_and_end_to_end_scenario :
    (∀ (v : ViewParams) (wx wy : ℚ), worldToGrid v wx wy
        = ((wx - v.originX) / v.resolution, v.gridH - (wy - v.originY) / v.resolution)) ∧
    odomTheta 0 1 = 0 ∧
    odomPosCoord 2 = 2 ∧
    worldToGrid ⟨800, 400, 4, 4, 1, 0, 0, 1, 0, 0⟩ 2 2 = (2, 2) ∧
    headingRayDelta 0 1 = (20, 0) := by
  refine ⟨fun v wx wy => rfl, ?_, toFixed3_two, ?_, ?_⟩
  · unfold odomTheta
    rw [atan2_zero_one, show 2 * (0 : ℝ) * 180 / Real.pi = 0 by norm_num]
    exact toFixed1_zero
  · simp [worldToGrid, Prod.ext_iff]
    norm_num
  · simp [headingRayDelta, Prod.ext_iff, Real.cos_zero, Real.sin_zero]

end AMR
